import Mathlib

/-!
Verification of the DocGen MCP deployment orchestrator and multi-layer
health verification scripts.

Each definition below is a shallow embedding of a Python function from the
repository (`scripts/python/mcp_server_setup.py`, `scripts/python/mcp_health_monitor.py`,
`scripts/python/mcp/mcp_manager.py`, `scripts/python/mcp/health_monitor.py`,
`scripts/python/mcp_deploy.py`, `scripts/deploy_mcp.py`).  External effects
(socket probes, `docker` subprocess calls, HTTP requests, the wall clock) are
modelled as explicit oracle inputs; file contents are modelled as strings or
line lists; the polling loops are modelled with an explicit iteration budget
(one unit of fuel per `time.sleep` backoff cycle).
-/

namespace DocGen

/-! ## Python string primitives, embedded on `List Char` -/

/-- Python `str.strip()`: drop whitespace from both ends (character list form). -/
def stripChars (l : List Char) : List Char :=
  ((l.dropWhile Char.isWhitespace).reverse.dropWhile Char.isWhitespace).reverse

/-- Python `line.strip()` on a `String`. -/
def pyStrip (s : String) : String :=
  ⟨stripChars s.data⟩

/-- Python `line.startswith('#')` (applied after stripping): the first
character is `'#'`. -/
def startsWithHash (l : List Char) : Bool :=
  l.head? == some '#'

/-- Python `line.split('=', 1)` when `'='` is present: the text before the
first `'='` and everything after it (the value may itself contain `'='`). -/
def splitAtFirstEq : List Char → List Char × List Char
  | [] => ([], [])
  | c :: cs =>
    if c = '=' then ([], cs)
    else
      let p := splitAtFirstEq cs
      (c :: p.1, p.2)

/-- Python `dict` assignment `d[k] = v` on an association list: replace the
value in place if the key exists, otherwise append the new binding. -/
def upsert (m : List (String × String)) (k v : String) : List (String × String) :=
  if m.any (fun p => p.1 = k) then
    m.map (fun p => if p.1 = k then (k, v) else p)
  else
    m ++ [(k, v)]

/-- One step of Python `str.replace(old, new)` (all non-overlapping
occurrences, scanning left to right), with explicit fuel.  `fuel ≥ s.length`
is enough when the pattern is non-empty. -/
def replaceChars : Nat → List Char → List Char → List Char → List Char
  | 0, s, _, _ => s
  | fuel + 1, s, pat, rep =>
    match s with
    | [] => []
    | c :: rest =>
      if pat.isPrefixOf (c :: rest) then
        rep ++ replaceChars fuel ((c :: rest).drop pat.length) pat rep
      else
        c :: replaceChars fuel rest pat rep

/-- Python `s.replace(old, new)` on `String`. -/
def pyReplace (s pat rep : String) : String :=
  ⟨replaceChars s.data.length s.data pat.data rep.data⟩

/-! ## Port Allocator (`mcp_server_setup.find_free_port`,
`MCPServerManager.find_free_port`)

A port probe is modelled by an oracle `occupied : Nat → Bool`
(`connect_ex == 0`, i.e. the TCP connect succeeds, means occupied). -/

/-- `mcp_server_setup.find_free_port(start_port, end_port)`:
`for port in range(start_port, end_port)` — the scan EXCLUDES `end_port` —
returning the first port whose connect attempt fails, and raising
`RuntimeError` (modelled as `none`) when the scan is exhausted. -/
def find_free_port (occupied : Nat → Bool) (start_port end_port : Nat) : Option Nat :=
  (List.range' start_port (end_port - start_port)).find? (fun p => !occupied p)

/-- `MCPServerManager.find_free_port`:
`for port in range(self.port_range_start, self.port_range_end + 1)` — the
scan INCLUDES the end of the range. -/
def manager_find_free_port (occupied : Nat → Bool) (range_start range_end : Nat) : Option Nat :=
  (List.range' range_start (range_end + 1 - range_start)).find? (fun p => !occupied p)

/-- Claim C2: `find_free_port` on the inclusive range `[s, e]` returns the
first free port and in particular returns `e` when `e` is the only free
port.  The code in `mcp_server_setup.py` scans `range(s, e)`, which excludes
`e`: on the degenerate range `[3000, 3000]` (exactly the `"p-p"` ranges that
`assign_dynamic_ports` itself writes back to the environment file) it fails
with `RuntimeError` even though port 3000 is free, while the manager variant
(`range(s, e + 1)`) returns 3000 as the claim requires. -/
theorem find_free_port_excludes_range_end :
    find_free_port (fun _ => false) 3000 3000 = none ∧
    manager_find_free_port (fun _ => false) 3000 3000 = some 3000 ∧
    find_free_port (fun p => p ≠ 3100) 3000 3100 = none ∧
    manager_find_free_port (fun p => p ≠ 3100) 3000 3100 = some 3100 := by
  refine ⟨rfl, rfl, ?_, ?_⟩ <;> decide

/-! ## Gateway Configurator (`MCPServerManager._update_gateway_config`)

`running_servers` is the manager's insertion-ordered dict of server-info
records; the gateway config file content is the state that the method reads,
rewrites and writes back to the same path (`GATEWAY_CONF_PATH`). -/

/-- One record of `MCPServerManager.running_servers` (the fields the gateway
and stop logic read). -/
structure ServerInfo where
  name : String
  port : Nat
deriving DecidableEq, Repr

/-- The upstream block built by `_update_gateway_config`:
`"upstream mcp_servers {\n"` followed by one
`"    server <name>:<port>;\n"` line per running server, closed by `"}"`. -/
def buildUpstreamBlock (servers : List ServerInfo) : String :=
  "upstream mcp_servers \x7b\n" ++
    String.join (servers.map (fun s => "    server " ++ s.name ++ ":" ++ toString s.port ++ ";\n")) ++
    "\x7d"

/-- `MCPServerManager._update_gateway_config`, as a transformation of the
gateway config file content: if no servers are running it returns the file
unchanged (early `return`); otherwise it replaces the opening marker
`"upstream mcp_servers {"` with the freshly built upstream block and replaces
`$MCP_SERVER_COUNT` with the server count, writing the result back to the
same file it read. -/
def update_gateway_config (servers : List ServerInfo) (config : String) : String :=
  if servers.isEmpty then config
  else
    let config := pyReplace config "upstream mcp_servers \x7b" (buildUpstreamBlock servers)
    pyReplace config "$MCP_SERVER_COUNT" (toString servers.length)

/-- Claim C3: regeneration is claimed idempotent — two successive calls with
the same running-service set should produce byte-identical config bytes.  It
is not: the method splices the upstream block into the file it just wrote,
whose opening marker is still present, so the second call duplicates the
upstream `server` lines.  Evaluated at one running server and the stock
template opening `upstream mcp_servers {\n}`. -/
theorem update_gateway_config_not_idempotent :
    update_gateway_config [⟨"mcp_server_llama", 9000⟩]
        (update_gateway_config [⟨"mcp_server_llama", 9000⟩] "upstream mcp_servers \x7b\n\x7d") ≠
      update_gateway_config [⟨"mcp_server_llama", 9000⟩] "upstream mcp_servers \x7b\n\x7d" ∧
    update_gateway_config [⟨"mcp_server_llama", 9000⟩] "upstream mcp_servers \x7b\n\x7d" =
      "upstream mcp_servers \x7b\n    server mcp_server_llama:9000;\n\x7d\n\x7d" ∧
    update_gateway_config [⟨"mcp_server_llama", 9000⟩]
        (update_gateway_config [⟨"mcp_server_llama", 9000⟩] "upstream mcp_servers \x7b\n\x7d") =
      "upstream mcp_servers \x7b\n    server mcp_server_llama:9000;\n\x7d\n    server mcp_server_llama:9000;\n\x7d\n\x7d" := by
  refine ⟨?_, ?_, ?_⟩ <;> decide

/-! ## Environment Store readers

Three loaders in the repository parse the flat `key=value` file format.
The file content is modelled as the list of its lines (what Python's
`for line in f` iterates over). -/

/-- The shared reading loop of `mcp_health_monitor.load_env_vars` and of
`assign_dynamic_ports` in `mcp_server_setup.py`:
`if line and not line.startswith('#') and '=' in line:` — a stripped line is
consumed only when it is non-blank, not a comment, and contains `'='`;
every other line (including a malformed assignment) is passed over. -/
def loadEnvLoop : List String → List (String × String) → List (String × String)
  | [], env_vars => env_vars
  | l :: ls, env_vars =>
    let line := pyStrip l
    if line ≠ "" ∧ ¬ startsWithHash line.data ∧ line.data.contains '=' then
      let p := splitAtFirstEq line.data
      loadEnvLoop ls (upsert env_vars ⟨p.1⟩ ⟨p.2⟩)
    else
      loadEnvLoop ls env_vars

/-- `mcp_health_monitor.load_env_vars()` applied to the lines of `.env.mcp`
(an absent file gives the empty line list). -/
def load_env_vars (lines : List String) : List (String × String) :=
  loadEnvLoop lines []

/-- `deploy_mcp.load_env_file(file_path)`: blank and comment lines are
skipped, other lines are split by `line.split('=', 1)` — which raises
`ValueError` when the line has no `'='`; the surrounding
`except Exception` then prints and calls `sys.exit(1)`, modelled as
`Except.error`.  Key and value are stripped. -/
def loadEnvFileLoop : List String → List (String × String) → Except Unit (List (String × String))
  | [], env_vars => .ok env_vars
  | l :: ls, env_vars =>
    let line := pyStrip l
    if line = "" ∨ startsWithHash line.data then
      loadEnvFileLoop ls env_vars
    else if line.data.contains '=' then
      let p := splitAtFirstEq line.data
      loadEnvFileLoop ls (upsert env_vars (pyStrip ⟨p.1⟩) (pyStrip ⟨p.2⟩))
    else
      .error ()

/-- `deploy_mcp.load_env_file`. -/
def load_env_file (lines : List String) : Except Unit (List (String × String)) :=
  loadEnvFileLoop lines []

/-- A non-blank, non-comment line with no `'='` — the malformed case of
claim C5. -/
def MalformedLine (l : String) : Prop :=
  pyStrip l ≠ "" ∧ startsWithHash (pyStrip l).data = false ∧ (pyStrip l).data.contains '=' = false

instance (l : String) : Decidable (MalformedLine l) := by
  unfold MalformedLine; infer_instance

/-- `splitAtFirstEq` splits at the FIRST `'='`: everything before it is the
key, everything after it is the value, which may itself contain `'='`. -/
theorem splitAtFirstEq_append (k v : List Char) (hk : k.contains '=' = false) :
    splitAtFirstEq (k ++ '=' :: v) = (k, v) := by
  induction k with
  | nil => simp [splitAtFirstEq]
  | cons c cs ih =>
    simp only [List.contains_cons, Bool.or_eq_false_iff] at hk
    have hc : ¬ c = '=' := by
      intro h; subst h; simp at hk
    simp [splitAtFirstEq, hc, ih hk.2]

/-- Claim C5, counterexample: loading a file whose second line `"FOO"` is
neither blank nor a comment and contains no `'='` does not fail at all —
`load_env_vars` silently skips the line and returns the same mapping as for
the file without it, contradicting "propagated to the caller, never silently
skipped". -/
theorem load_env_vars_skips_malformed_line :
    MalformedLine "FOO" ∧
    load_env_vars ["A=1", "FOO", "B=2"] = [("A", "1"), ("B", "2")] ∧
    load_env_vars ["A=1", "FOO", "B=2"] = load_env_vars ["A=1", "B=2"] := by
  refine ⟨by decide, by decide, by decide⟩

/-- Claim C5 as amended: the loaders in `mcp_health_monitor.load_env_vars`
and `mcp_server_setup.assign_dynamic_ports` silently skip a malformed line
(it never raises — the guard simply rejects the line); only
`deploy_mcp.load_env_file` fails on one, and it aborts the process
(`sys.exit(1)`) rather than propagating the error; in every loader a line
containing `'='` splits at the first `'='`, so values may contain `'='`. -/
theorem env_loader_malformed_line_behavior :
    (∀ (l : String) (ls : List String) (acc : List (String × String)),
      MalformedLine l → loadEnvLoop (l :: ls) acc = loadEnvLoop ls acc) ∧
    (∀ (l : String) (ls : List String) (acc : List (String × String)),
      MalformedLine l → loadEnvFileLoop (l :: ls) acc = .error ()) ∧
    (∀ k v : List Char, k.contains '=' = false →
      splitAtFirstEq (k ++ '=' :: v) = (k, v)) := by
  refine ⟨?_, ?_, ?_⟩
  · intro l ls acc hmal
    obtain ⟨h1, h2, h3⟩ := hmal
    simp only [loadEnvLoop, h2, h3]
    simp
  · intro l ls acc hmal
    obtain ⟨h1, h2, h3⟩ := hmal
    simp only [loadEnvFileLoop, h1, h2, h3]
    simp [h1, h2]
  · exact splitAtFirstEq_append

/-- Witness for `env_loader_malformed_line_behavior` at the line `"FOO"`,
the file tail `["B=2"]`, and the assignment characters `"A" = "x=y"`. -/
theorem env_loader_malformed_line_behavior_witness :
    loadEnvLoop ["FOO", "B=2"] [("A", "1")] = loadEnvLoop ["B=2"] [("A", "1")] ∧
    loadEnvFileLoop ["FOO", "B=2"] [("A", "1")] = .error () ∧
    splitAtFirstEq ('A' :: '=' :: ['x', '=', 'y']) = (['A'], ['x', '=', 'y']) := by
  refine ⟨?_, ?_, ?_⟩
  · exact env_loader_malformed_line_behavior.1 "FOO" ["B=2"] [("A", "1")] (by decide)
  · exact env_loader_malformed_line_behavior.2.1 "FOO" ["B=2"] [("A", "1")] (by decide)
  · exact env_loader_malformed_line_behavior.2.2 ['A'] ['x', '=', 'y'] (by decide)

/-! ## Dynamic port assignment (`mcp_server_setup.assign_dynamic_ports`)

The function rewrites `.env.mcp`: it re-reads the file with the
skip-malformed loop above, allocates one port per hardcoded range, stores the
three degenerate `"p-p"` ranges, and writes the mapping back as
`sorted(env_vars.items())`, one `key=value` line each. -/

/-- Lexicographic (code-point) order on character lists — the order in which
Python's `sorted` arranges the distinct keys of the environment dict. -/
def charListLe : List Char → List Char → Bool
  | [], _ => true
  | _ :: _, [] => false
  | a :: as, b :: bs =>
    if a.toNat < b.toNat then true
    else if b.toNat < a.toNat then false
    else charListLe as bs

theorem charListLe_total (a : List Char) : ∀ b, charListLe a b = true ∨ charListLe b a = true := by
  induction a with
  | nil => intro b; left; simp [charListLe]
  | cons x xs ih =>
    intro b
    cases b with
    | nil => right; simp [charListLe]
    | cons y ys =>
      by_cases h1 : x.toNat < y.toNat
      · left; simp [charListLe, h1]
      · by_cases h2 : y.toNat < x.toNat
        · right; simp [charListLe, h2]
        · rcases ih ys with h | h
          · left; simp [charListLe, h1, h2, h]
          · right; simp [charListLe, h1, h2, h]

theorem charListLe_trans (a : List Char) :
    ∀ b c, charListLe a b = true → charListLe b c = true → charListLe a c = true := by
  induction a with
  | nil => intro b c _ _; simp [charListLe]
  | cons x xs ih =>
    intro b c hab hbc
    cases b with
    | nil => simp [charListLe] at hab
    | cons y ys =>
      cases c with
      | nil => simp [charListLe] at hbc
      | cons z zs =>
        by_cases hxy : x.toNat < y.toNat
        · by_cases hyz : y.toNat < z.toNat
          · simp [charListLe, show x.toNat < z.toNat by omega]
          · by_cases hzy : z.toNat < y.toNat
            · simp [charListLe, hyz, hzy] at hbc
            · simp [charListLe, show x.toNat < z.toNat by omega]
        · by_cases hyx : y.toNat < x.toNat
          · simp [charListLe, hxy, hyx] at hab
          · by_cases hyz : y.toNat < z.toNat
            · simp [charListLe, show x.toNat < z.toNat by omega]
            · by_cases hzy : z.toNat < y.toNat
              · simp [charListLe, hyz, hzy] at hbc
              · simp only [charListLe, if_neg hxy, if_neg hyx] at hab
                simp only [charListLe, if_neg hyz, if_neg hzy] at hbc
                simp only [charListLe, if_neg (show ¬ x.toNat < z.toNat by omega),
                  if_neg (show ¬ z.toNat < x.toNat by omega)]
                exact ih ys zs hab hbc

/-- Key order on environment entries (keys are distinct, so Python's tuple
sort coincides with sorting by key). -/
def envLe (p q : String × String) : Bool :=
  charListLe p.1.data q.1.data

/-- Insertion step of the sort producing `sorted(env_vars.items())`. -/
def insertEnvSorted (x : String × String) : List (String × String) → List (String × String)
  | [] => [x]
  | y :: ys => if envLe x y then x :: y :: ys else y :: insertEnvSorted x ys

/-- `sorted(env_vars.items())` for distinct keys. -/
def sortEnv : List (String × String) → List (String × String)
  | [] => []
  | x :: xs => insertEnvSorted x (sortEnv xs)

theorem insertEnvSorted_perm (x : String × String) :
    ∀ l, (insertEnvSorted x l).Perm (x :: l) := by
  intro l
  induction l with
  | nil => simp [insertEnvSorted]
  | cons y ys ih =>
    simp only [insertEnvSorted]
    split
    · exact List.Perm.refl _
    · exact (List.Perm.cons y ih).trans (List.Perm.swap x y ys)

theorem sortEnv_perm : ∀ l, (sortEnv l).Perm l := by
  intro l
  induction l with
  | nil => simp [sortEnv]
  | cons x xs ih =>
    exact (insertEnvSorted_perm x (sortEnv xs)).trans (List.Perm.cons x ih)

theorem insertEnvSorted_pairwise (x : String × String) :
    ∀ l, List.Pairwise (fun a b => envLe a b = true) l →
      List.Pairwise (fun a b => envLe a b = true) (insertEnvSorted x l) := by
  intro l
  induction l with
  | nil => intro _; simp [insertEnvSorted]
  | cons y ys ih =>
    intro hp
    rcases List.pairwise_cons.mp hp with ⟨hy, hys⟩
    simp only [insertEnvSorted]
    by_cases h : envLe x y = true
    · simp only [if_pos h]
      refine List.pairwise_cons.mpr ⟨?_, hp⟩
      intro z hz
      rcases List.mem_cons.mp hz with hz | hz
      · subst hz; exact h
      · exact charListLe_trans _ _ _ h (hy z hz)
    · have h' : envLe y x = true :=
        (charListLe_total x.1.data y.1.data).resolve_left h
      simp only [if_neg h]
      refine List.pairwise_cons.mpr ⟨?_, ih hys⟩
      intro z hz
      rcases List.mem_cons.mp ((insertEnvSorted_perm x ys).mem_iff.mp hz) with hz | hz
      · subst hz; exact h'
      · exact hy z hz

theorem sortEnv_pairwise : ∀ l, List.Pairwise (fun a b => envLe a b = true) (sortEnv l) := by
  intro l
  induction l with
  | nil => simp [sortEnv]
  | cons x xs ih => exact insertEnvSorted_pairwise x (sortEnv xs) ih

/-- A key the repository's own parsers can produce or store: it contains no
`'='` (it came from the text before the first `'='`) and does not begin with
`'#'` (comment lines are never parsed). -/
def GoodKey (s : String) : Prop :=
  s.data.contains '=' = false ∧ startsWithHash s.data = false

instance (s : String) : Decidable (GoodKey s) := by
  unfold GoodKey; infer_instance

theorem splitAtFirstEq_fst_no_eq : ∀ l : List Char, (splitAtFirstEq l).1.contains '=' = false := by
  intro l
  induction l with
  | nil => simp [splitAtFirstEq]
  | cons c cs ih =>
    by_cases hc : c = '='
    · simp [splitAtFirstEq, hc]
    · simp only [splitAtFirstEq, if_neg hc, List.contains_cons, Bool.or_eq_false_iff]
      refine ⟨?_, ih⟩
      simp only [beq_eq_false_iff_ne, ne_eq]
      exact fun h => hc h.symm

theorem splitAtFirstEq_fst_no_hash (l : List Char) (h : startsWithHash l = false) :
    startsWithHash (splitAtFirstEq l).1 = false := by
  cases l with
  | nil => simp [splitAtFirstEq, startsWithHash]
  | cons c cs =>
    by_cases hc : c = '='
    · simp [splitAtFirstEq, hc, startsWithHash]
    · simpa [splitAtFirstEq, hc, startsWithHash] using h

theorem upsert_good (m : List (String × String)) (k v : String)
    (hm : ∀ p ∈ m, GoodKey p.1) (hk : GoodKey k) :
    ∀ p ∈ upsert m k v, GoodKey p.1 := by
  intro p hp
  unfold upsert at hp
  split at hp
  · rcases List.mem_map.mp hp with ⟨q, hq, rfl⟩
    by_cases hqk : q.1 = k
    · simpa [hqk] using hk
    · simpa [hqk] using hm q hq
  · rcases List.mem_append.mp hp with hp | hp
    · exact hm p hp
    · simp only [List.mem_singleton] at hp
      subst hp; exact hk

theorem upsert_map_fst (m : List (String × String)) (k v : String) :
    (upsert m k v).map Prod.fst =
      if m.any (fun p => p.1 = k) then m.map Prod.fst else m.map Prod.fst ++ [k] := by
  unfold upsert
  split
  · simp only [List.map_map]
    refine List.map_congr_left ?_
    intro p _
    by_cases hpk : p.1 = k
    · simp [hpk]
    · simp [hpk]
  · simp

theorem upsert_nodup (m : List (String × String)) (k v : String)
    (hm : (m.map Prod.fst).Nodup) : ((upsert m k v).map Prod.fst).Nodup := by
  rw [upsert_map_fst]
  split
  · exact hm
  · rename_i hany
    have hk : k ∉ m.map Prod.fst := by
      intro hmem
      rcases List.mem_map.mp hmem with ⟨p, hp, hpk⟩
      exact hany (List.any_eq_true.mpr ⟨p, hp, by simp [hpk]⟩)
    simp [List.nodup_append, hm, hk]

theorem upsert_self_mem (m : List (String × String)) (k v : String) :
    (k, v) ∈ upsert m k v := by
  unfold upsert
  split
  · rename_i hany
    rcases List.any_eq_true.mp hany with ⟨p, hp, hpk⟩
    simp only [decide_eq_true_eq] at hpk
    exact List.mem_map.mpr ⟨p, hp, by simp [hpk]⟩
  · simp

theorem upsert_other_mem (m : List (String × String)) (k v k₀ v₀ : String)
    (hne : k₀ ≠ k) (hmem : (k₀, v₀) ∈ m) : (k₀, v₀) ∈ upsert m k v := by
  unfold upsert
  split
  · exact List.mem_map.mpr ⟨(k₀, v₀), hmem, by simp [hne]⟩
  · exact List.mem_append.mpr (Or.inl hmem)

theorem loadEnvLoop_good : ∀ (ls : List String) (acc : List (String × String)),
    (∀ p ∈ acc, GoodKey p.1) → ∀ p ∈ loadEnvLoop ls acc, GoodKey p.1 := by
  intro ls
  induction ls with
  | nil => intro acc hacc; simpa [loadEnvLoop] using hacc
  | cons l ls ih =>
    intro acc hacc
    simp only [loadEnvLoop]
    split
    · rename_i hcond
      refine ih _ (upsert_good _ _ _ hacc ?_)
      refine ⟨splitAtFirstEq_fst_no_eq _, splitAtFirstEq_fst_no_hash _ ?_⟩
      exact Bool.not_eq_true _ ▸ (by exact_mod_cast hcond.2.1)
    · exact ih _ hacc

theorem loadEnvLoop_nodup : ∀ (ls : List String) (acc : List (String × String)),
    (acc.map Prod.fst).Nodup → ((loadEnvLoop ls acc).map Prod.fst).Nodup := by
  intro ls
  induction ls with
  | nil => intro acc hacc; simpa [loadEnvLoop] using hacc
  | cons l ls ih =>
    intro acc hacc
    simp only [loadEnvLoop]
    split
    · exact ih _ (upsert_nodup _ _ _ hacc)
    · exact ih _ hacc

/-- The degenerate single-port range string `f"{port}-{port}"`. -/
def portRangePair (p : Nat) : String :=
  toString p ++ "-" ++ toString p

/-- `mcp_server_setup.assign_dynamic_ports()`: re-read `.env.mcp` (given as
its line list), allocate one free port from each hardcoded range via
`find_free_port` (a raised `RuntimeError` aborts, modelled as `none`), store
the three degenerate `"p-p"` ranges in the dict, and rewrite the whole file
as `sorted(env_vars.items())`, one `f"{key}={value}"` line each.  Returns
the written lines together with the `github`/`main`/`main_health` ports. -/
def assign_dynamic_ports (oldLines : List String) (occupied : Nat → Bool) :
    Option (List String × (Nat × Nat × Nat)) :=
  let env_vars := load_env_vars oldLines
  match find_free_port occupied 3000 3100, find_free_port occupied 3200 3300,
      find_free_port occupied 8800 8900 with
  | some github_port, some main_port, some main_health_port =>
    let env_vars := upsert env_vars "GITHUB_MCP_PORT_RANGE" (portRangePair github_port)
    let env_vars := upsert env_vars "MAIN_MCP_PORT_RANGE" (portRangePair main_port)
    let env_vars := upsert env_vars "MAIN_MCP_HEALTH_PORT_RANGE" (portRangePair main_health_port)
    some ((sortEnv env_vars).map (fun p => p.1 ++ "=" ++ p.2),
      (github_port, main_port, main_health_port))
  | _, _, _ => none

/-- The key under which any of the repository's loaders would re-parse a
written line: the text before the first `'='`. -/
def lineKey (l : String) : String :=
  ⟨(splitAtFirstEq l.data).1⟩

theorem find_free_port_bounds (occupied : Nat → Bool) (s e p : Nat)
    (h : find_free_port occupied s e = some p) : s ≤ p ∧ p < e := by
  unfold find_free_port at h
  have hp := List.mem_of_find?_eq_some h
  rcases List.mem_range'_1.mp hp with ⟨h1, h2⟩
  refine ⟨h1, ?_⟩
  by_cases hse : s ≤ e
  · omega
  · omega

theorem mkLine_data (k v : String) : (k ++ "=" ++ v).data = k.data ++ '=' :: v.data := by
  show (k.data ++ ('=' :: List.nil) ++ v.data) = k.data ++ '=' :: v.data
  simp

theorem contains_append_cons (a b : List Char) (c : Char) :
    (a ++ c :: b).contains c = true := by
  induction a with
  | nil => simp [List.contains_cons]
  | cons x xs ih => simp [List.contains_cons, ih]

theorem lineKey_mkLine (k v : String) (hk : k.data.contains '=' = false) :
    lineKey (k ++ "=" ++ v) = k := by
  unfold lineKey
  rw [mkLine_data, splitAtFirstEq_append _ _ hk]

/-- Claim C10: a successful `assign_dynamic_ports` run rewrites the
environment file so that (a) the three allocated ports come from their
hardcoded original ranges, (b) each `*_PORT_RANGE` key now holds the
degenerate `"p-p"` range of the allocated port, (c) lines are sorted by key
and every key appears exactly once, and (d) no comment or blank line
survives: every written line is a non-blank, non-comment `key=value`
assignment. -/
theorem assign_dynamic_ports_rewrites_file (oldLines : List String)
    (occupied : Nat → Bool) (lines : List String) (g m h : Nat)
    (hrun : assign_dynamic_ports oldLines occupied = some (lines, (g, m, h))) :
    (3000 ≤ g ∧ g ≤ 3100) ∧ (3200 ≤ m ∧ m ≤ 3300) ∧ (8800 ≤ h ∧ h ≤ 8900) ∧
    ("GITHUB_MCP_PORT_RANGE" ++ "=" ++ portRangePair g) ∈ lines ∧
    ("MAIN_MCP_PORT_RANGE" ++ "=" ++ portRangePair m) ∈ lines ∧
    ("MAIN_MCP_HEALTH_PORT_RANGE" ++ "=" ++ portRangePair h) ∈ lines ∧
    List.Pairwise (fun a b : String => charListLe a.data b.data = true) (lines.map lineKey) ∧
    (lines.map lineKey).Nodup ∧
    (∀ l ∈ lines, l ≠ "" ∧ startsWithHash l.data = false ∧ l.data.contains '=' = true) := by
  unfold assign_dynamic_ports at hrun
  rcases hg : find_free_port occupied 3000 3100 with _ | g'
  · rw [hg] at hrun; simp at hrun
  rcases hm : find_free_port occupied 3200 3300 with _ | m'
  · rw [hg, hm] at hrun; simp at hrun
  rcases hh : find_free_port occupied 8800 8900 with _ | h'
  · rw [hg, hm, hh] at hrun; simp at hrun
  rw [hg, hm, hh] at hrun
  simp only [Option.some.injEq, Prod.mk.injEq] at hrun
  obtain ⟨hlines, hgg, hmm, hhh⟩ := hrun
  rw [hgg, hmm, hhh] at hlines
  rw [hgg] at hg
  rw [hmm] at hm
  rw [hhh] at hh
  set env0 := load_env_vars oldLines with henv0
  set env1 := upsert env0 "GITHUB_MCP_PORT_RANGE" (portRangePair g) with henv1
  set env2 := upsert env1 "MAIN_MCP_PORT_RANGE" (portRangePair m) with henv2
  set env3 := upsert env2 "MAIN_MCP_HEALTH_PORT_RANGE" (portRangePair h) with henv3
  have hgood : ∀ p ∈ env3, GoodKey p.1 := by
    refine upsert_good _ _ _ (upsert_good _ _ _ (upsert_good _ _ _ ?_ (by decide)) (by decide))
      (by decide)
    exact loadEnvLoop_good oldLines [] (by simp)
  have hnodup : (env3.map Prod.fst).Nodup := by
    refine upsert_nodup _ _ _ (upsert_nodup _ _ _ (upsert_nodup _ _ _ ?_))
    exact loadEnvLoop_nodup oldLines [] (by simp)
  have hsortGood : ∀ p ∈ sortEnv env3, GoodKey p.1 := by
    intro p hp
    exact hgood p ((sortEnv_perm env3).mem_iff.mp hp)
  have hkeys : lines.map lineKey = (sortEnv env3).map Prod.fst := by
    rw [← hlines, List.map_map]
    refine List.map_congr_left ?_
    intro p hp
    exact lineKey_mkLine p.1 p.2 (hsortGood p hp).1
  have hmemK1 : ("GITHUB_MCP_PORT_RANGE", portRangePair g) ∈ env3 := by
    refine upsert_other_mem _ _ _ _ _ (by decide) ?_
    refine upsert_other_mem _ _ _ _ _ (by decide) ?_
    exact upsert_self_mem _ _ _
  have hmemK2 : ("MAIN_MCP_PORT_RANGE", portRangePair m) ∈ env3 := by
    refine upsert_other_mem _ _ _ _ _ (by decide) ?_
    exact upsert_self_mem _ _ _
  have hmemK3 : ("MAIN_MCP_HEALTH_PORT_RANGE", portRangePair h) ∈ env3 :=
    upsert_self_mem _ _ _
  have hmemLine : ∀ kv : String × String, kv ∈ env3 → (kv.1 ++ "=" ++ kv.2) ∈ lines := by
    intro kv hkv
    rw [← hlines]
    exact List.mem_map.mpr ⟨kv, (sortEnv_perm env3).mem_iff.mpr hkv, rfl⟩
  have hb1 := find_free_port_bounds occupied 3000 3100 g hg
  have hb2 := find_free_port_bounds occupied 3200 3300 m hm
  have hb3 := find_free_port_bounds occupied 8800 8900 h hh
  refine ⟨⟨hb1.1, by omega⟩, ⟨hb2.1, by omega⟩, ⟨hb3.1, by omega⟩,
    hmemLine _ hmemK1, hmemLine _ hmemK2, hmemLine _ hmemK3, ?_, ?_, ?_⟩
  · rw [hkeys]
    exact List.pairwise_map.mpr ((sortEnv_pairwise env3).imp (fun hab => hab))
  · rw [hkeys]
    exact ((sortEnv_perm env3).map Prod.fst).nodup_iff.mpr hnodup
  · intro l hl
    rw [← hlines] at hl
    rcases List.mem_map.mp hl with ⟨p, hp, rfl⟩
    have hgk := hsortGood p hp
    refine ⟨?_, ?_, ?_⟩
    · intro heq
      have : (p.1 ++ "=" ++ p.2).data = ("" : String).data := by rw [heq]
      rw [mkLine_data] at this
      simp at this
    · rw [mkLine_data]
      cases hp1 : p.1.data with
      | nil => simp [startsWithHash]
      | cons c cs =>
        have := hgk.2
        rw [hp1] at this
        simpa [startsWithHash] using this
    · rw [mkLine_data]
      exact contains_append_cons _ _ _

/-- Witness for `assign_dynamic_ports_rewrites_file`: a concrete file with a
comment, a blank line and one assignment, and no port occupied, rewrites to
the four sorted assignment lines with ports 3000/3200/8800. -/
theorem assign_dynamic_ports_rewrites_file_witness :
    assign_dynamic_ports ["# ports", "", "A=1"] (fun _ => false) =
      some (["A=1", "GITHUB_MCP_PORT_RANGE=3000-3000",
        "MAIN_MCP_HEALTH_PORT_RANGE=8800-8800", "MAIN_MCP_PORT_RANGE=3200-3200"],
        (3000, 3200, 8800)) ∧
    ("GITHUB_MCP_PORT_RANGE" ++ "=" ++ portRangePair 3000) ∈
      ["A=1", "GITHUB_MCP_PORT_RANGE=3000-3000",
        "MAIN_MCP_HEALTH_PORT_RANGE=8800-8800", "MAIN_MCP_PORT_RANGE=3200-3200"] ∧
    ((["A=1", "GITHUB_MCP_PORT_RANGE=3000-3000",
        "MAIN_MCP_HEALTH_PORT_RANGE=8800-8800", "MAIN_MCP_PORT_RANGE=3200-3200"] :
        List String).map lineKey).Nodup := by
  have happ := assign_dynamic_ports_rewrites_file ["# ports", "", "A=1"] (fun _ => false)
    ["A=1", "GITHUB_MCP_PORT_RANGE=3000-3000",
      "MAIN_MCP_HEALTH_PORT_RANGE=8800-8800", "MAIN_MCP_PORT_RANGE=3200-3200"]
    3000 3200 8800 (by decide)
  exact ⟨by decide, happ.2.2.2.1, happ.2.2.2.2.2.2.2.1⟩

/-! ## Process Controller stop (`MCPServerManager.stop_server`)

`running_servers` is the manager's dict keyed by `f"mcp_server_{model_name}"`;
the docker `stop`/`rm` invocation is an oracle Boolean (`returncode == 0`).
The subsequent `_update_gateway_config` call does not touch
`running_servers`, so the map and return value are fully captured here. -/

/-- `MCPServerManager.stop_server(model_name)`: unknown server → `False`
without touching the map; backend failure (`result.returncode != 0`) →
`False` with the entry retained; backend success → entry deleted
(`del self.running_servers[server_name]`) and `True`. -/
def stop_server (running : List (String × ServerInfo)) (model_name : String)
    (dockerStopOk : Bool) : Bool × List (String × ServerInfo) :=
  let server_name := "mcp_server_" ++ model_name
  if ¬ running.any (fun p => p.1 = server_name) then
    (false, running)
  else if ¬ dockerStopOk then
    (false, running)
  else
    (true, running.filter (fun p => ¬ p.1 = server_name))

/-- Claim C6: for a registered service, `stop_server` returns the backend's
confirmation bit; on failure the running-servers map is unchanged (entry
retained, `False` returned); on success exactly the stopped server's entry
is deleted — it is gone from the map, every other entry survives, and
nothing new appears. -/
theorem stop_server_removes_entry_only_after_confirmation
    (running : List (String × ServerInfo)) (model_name : String) (dockerStopOk : Bool)
    (hreg : running.any (fun p => p.1 = "mcp_server_" ++ model_name) = true) :
    (stop_server running model_name dockerStopOk).1 = dockerStopOk ∧
    (dockerStopOk = false → (stop_server running model_name dockerStopOk).2 = running) ∧
    (dockerStopOk = true →
      (∀ p ∈ (stop_server running model_name dockerStopOk).2, p.1 ≠ "mcp_server_" ++ model_name) ∧
      (∀ p ∈ running, p.1 ≠ "mcp_server_" ++ model_name →
        p ∈ (stop_server running model_name dockerStopOk).2) ∧
      (∀ p ∈ (stop_server running model_name dockerStopOk).2, p ∈ running)) := by
  cases dockerStopOk with
  | false =>
    have heq : stop_server running model_name false = (false, running) := by
      simp [stop_server, hreg]
    rw [heq]
    exact ⟨rfl, fun _ => rfl, fun hc => by simp at hc⟩
  | true =>
    have heq : stop_server running model_name true =
        (true, running.filter (fun p => ¬ p.1 = "mcp_server_" ++ model_name)) := by
      simp [stop_server, hreg]
    rw [heq]
    refine ⟨rfl, fun hc => by simp at hc, fun _ => ⟨?_, ?_, ?_⟩⟩
    · intro p hp
      have := List.of_mem_filter hp
      simpa using this
    · intro p hp hne
      exact List.mem_filter.mpr ⟨hp, by simpa using hne⟩
    · intro p hp
      exact List.mem_of_mem_filter hp

/-- Witness for `stop_server_removes_entry_only_after_confirmation` on a
two-server map: failing to stop `llama` keeps both entries and returns
`False`; stopping it successfully returns `True` and leaves only `phi`. -/
theorem stop_server_removes_entry_only_after_confirmation_witness :
    (stop_server [("mcp_server_llama", ⟨"mcp_server_llama", 9000⟩),
        ("mcp_server_phi", ⟨"mcp_server_phi", 9001⟩)] "llama" false).2 =
      [("mcp_server_llama", ⟨"mcp_server_llama", 9000⟩),
        ("mcp_server_phi", ⟨"mcp_server_phi", 9001⟩)] ∧
    (stop_server [("mcp_server_llama", ⟨"mcp_server_llama", 9000⟩),
        ("mcp_server_phi", ⟨"mcp_server_phi", 9001⟩)] "llama" false).1 = false ∧
    (stop_server [("mcp_server_llama", ⟨"mcp_server_llama", 9000⟩),
        ("mcp_server_phi", ⟨"mcp_server_phi", 9001⟩)] "llama" true).1 = true ∧
    ∀ p ∈ (stop_server [("mcp_server_llama", ⟨"mcp_server_llama", 9000⟩),
        ("mcp_server_phi", ⟨"mcp_server_phi", 9001⟩)] "llama" true).2,
      p.1 ≠ "mcp_server_" ++ "llama" := by
  refine ⟨?_, ?_, ?_, ?_⟩
  · exact (stop_server_removes_entry_only_after_confirmation _ "llama" false
      (by decide)).2.1 rfl
  · have hth := stop_server_removes_entry_only_after_confirmation
      [("mcp_server_llama", ⟨"mcp_server_llama", 9000⟩),
        ("mcp_server_phi", ⟨"mcp_server_phi", 9001⟩)] "llama" false (by decide)
    simpa using hth.1
  · have hth := stop_server_removes_entry_only_after_confirmation
      [("mcp_server_llama", ⟨"mcp_server_llama", 9000⟩),
        ("mcp_server_phi", ⟨"mcp_server_phi", 9001⟩)] "llama" true (by decide)
    simpa using hth.1
  · exact (stop_server_removes_entry_only_after_confirmation _ "llama" true
      (by decide)).2.2 rfl |>.1

/-! ## Health report (`mcp_health_monitor.generate_health_report`)

The four layer probes are passed in as their result dictionaries
(association lists).  `None` models a missing dict entry, i.e. the Python
defaults `{"accessible": False}`, `{"healthy": False}` and `{}`. -/

/-- One entry of `check_container_status()`. -/
structure ContainerStatus where
  running : Bool
  healthy : Bool
  status : String
deriving DecidableEq, Repr

/-- One entry of `check_tcp_connectivity(ports)`. -/
structure TcpResult where
  port : Nat
  accessible : Bool
deriving DecidableEq, Repr

/-- One entry of `check_http_health_endpoints(ports)`. -/
structure HttpResult where
  port : Nat
  healthy : Bool
deriving DecidableEq, Repr

/-- One entry of `check_resource_usage()`. -/
structure ResourceUsage where
  cpu : String
  memory_percent : String
  memory_usage : String
deriving DecidableEq, Repr

/-- The per-server block of the report:
`{container, tcp, http, resources}`. -/
structure ServerLayers where
  container : ContainerStatus
  tcp : Option TcpResult
  http : Option HttpResult
  resources : Option ResourceUsage
deriving DecidableEq, Repr

/-- The `overall` block of the report:
`{healthy, containers_healthy, tcp_accessible, http_healthy}`. -/
structure OverallStatus where
  healthy : Bool
  containers_healthy : Bool
  tcp_accessible : Bool
  http_healthy : Bool
deriving DecidableEq, Repr

/-- The report document: `{timestamp, servers, overall}`. -/
structure HealthReport where
  timestamp : String
  servers : List (String × ServerLayers)
  overall : OverallStatus
deriving DecidableEq, Repr

/-- `mcp_health_monitor.generate_health_report()`: one server block per
container (keyed by the container name with the `docgen-mcp-` prefix
stripped), then the overall block computed by `all()` over the three
gating layer dicts; the resource dict feeds only the per-server
`resources` field. -/
def generate_health_report (timestamp : String)
    (containers : List (String × ContainerStatus))
    (tcp_results : List (String × TcpResult))
    (http_results : List (String × HttpResult))
    (resources : List (String × ResourceUsage)) : HealthReport :=
  let servers := containers.map (fun c =>
    let server_name := pyReplace c.1 "docgen-mcp-" ""
    (server_name,
      { container := c.2
        tcp := tcp_results.lookup server_name
        http := http_results.lookup server_name
        resources := resources.lookup c.1 : ServerLayers }))
  let all_container_healthy := containers.all (fun c => c.2.healthy)
  let all_tcp_accessible := tcp_results.all (fun r => r.2.accessible)
  let all_http_healthy := http_results.all (fun r => r.2.healthy)
  { timestamp := timestamp
    servers := servers
    overall :=
      { healthy := all_container_healthy && all_tcp_accessible && all_http_healthy
        containers_healthy := all_container_healthy
        tcp_accessible := all_tcp_accessible
        http_healthy := all_http_healthy } }

/-- Claim C9: in every generated report, `overall.healthy` is exactly the
conjunction of `containers_healthy`, `tcp_accessible` and `http_healthy`,
each of which is the `all()` of its layer dict; the report keeps the claimed
schema (`timestamp`, one `{container, tcp, http, resources}` block per
server, the four-field `overall` block — the `HealthReport` structure
itself); and the resource layer never influences `overall` or any gating
field: swapping the resource dict for any other changes neither `overall`
nor the `container`/`tcp`/`http` parts of any server block. -/
theorem generate_health_report_overall_and_resource_free (timestamp : String)
    (containers : List (String × ContainerStatus))
    (tcp_results : List (String × TcpResult))
    (http_results : List (String × HttpResult))
    (res₁ res₂ : List (String × ResourceUsage)) :
    (generate_health_report timestamp containers tcp_results http_results res₁).overall.healthy =
      ((generate_health_report timestamp containers tcp_results http_results res₁).overall.containers_healthy &&
       (generate_health_report timestamp containers tcp_results http_results res₁).overall.tcp_accessible &&
       (generate_health_report timestamp containers tcp_results http_results res₁).overall.http_healthy) ∧
    (generate_health_report timestamp containers tcp_results http_results res₁).overall.containers_healthy =
      containers.all (fun c => c.2.healthy) ∧
    (generate_health_report timestamp containers tcp_results http_results res₁).overall.tcp_accessible =
      tcp_results.all (fun r => r.2.accessible) ∧
    (generate_health_report timestamp containers tcp_results http_results res₁).overall.http_healthy =
      http_results.all (fun r => r.2.healthy) ∧
    (generate_health_report timestamp containers tcp_results http_results res₁).timestamp = timestamp ∧
    (generate_health_report timestamp containers tcp_results http_results res₁).servers.map Prod.fst =
      containers.map (fun c => pyReplace c.1 "docgen-mcp-" "") ∧
    (generate_health_report timestamp containers tcp_results http_results res₂).overall =
      (generate_health_report timestamp containers tcp_results http_results res₁).overall ∧
    (generate_health_report timestamp containers tcp_results http_results res₂).servers.map
        (fun p => (p.1, p.2.container, p.2.tcp, p.2.http)) =
      (generate_health_report timestamp containers tcp_results http_results res₁).servers.map
        (fun p => (p.1, p.2.container, p.2.tcp, p.2.http)) := by
  refine ⟨rfl, rfl, rfl, rfl, rfl, ?_, rfl, ?_⟩
  · simp [generate_health_report]
  · simp [generate_health_report]

/-! ## Auto-restart policy (`MCPHealthMonitor.check_all`)

Health probes are oracles: `checkBefore` is the first
`check_server_health(server)` result for a server, `checkAfter` the result
of the single re-check after a restart; the gateway likewise.  The trace
records every probe and `restart_service` invocation, in program order. -/

/-- One observable action of `MCPHealthMonitor.check_all`. -/
inductive MonAction where
  | checkGateway
  | restart (service_name : String)
  | checkServer (server_name : String)
deriving DecidableEq, Repr

/-- Does the action concern the named server? -/
def mentions (n : String) : MonAction → Bool
  | .checkGateway => false
  | .restart s => s == n
  | .checkServer s => s == n

/-- One entry appended to `status["servers"]`. -/
structure ServerStatusEntry where
  name : String
  healthy : Bool
  restarted : Bool
deriving DecidableEq, Repr

/-- The per-server body of the `for server in servers` loop in `check_all`:
always one health check; when it fails and `auto_restart` is set, exactly
one `restart_service(server["name"])` followed by exactly one re-check whose
result (healthy or not) is recorded — never a second restart. -/
def serverEvents (checkBefore checkAfter : String → Bool) (auto_restart : Bool)
    (n : String) : List MonAction × ServerStatusEntry :=
  if checkBefore n = false ∧ auto_restart = true then
    ([.checkServer n, .restart n, .checkServer n], ⟨n, checkAfter n, true⟩)
  else
    ([.checkServer n], ⟨n, checkBefore n, false⟩)

/-- `MCPHealthMonitor.check_all(auto_restart)`: gateway check (with at most
one gateway restart and re-check), then the per-server loop; returns the
action trace, the final gateway verdict and the server status list. -/
def check_all (servers : List String) (gatewayHealthy1 gatewayHealthy2 : Bool)
    (checkBefore checkAfter : String → Bool) (auto_restart : Bool) :
    List MonAction × Bool × List ServerStatusEntry :=
  let gw :=
    if gatewayHealthy1 = false ∧ auto_restart = true then
      ([MonAction.checkGateway, MonAction.restart "mcp_gateway", MonAction.checkGateway],
        gatewayHealthy2)
    else ([MonAction.checkGateway], gatewayHealthy1)
  let per := servers.map (serverEvents checkBefore checkAfter auto_restart)
  (gw.1 ++ (per.map Prod.fst).flatten, gw.2, per.map Prod.snd)

theorem countP_eq_countP_filter_of_imp {α : Type} (l : List α) (p q : α → Bool)
    (himp : ∀ a, p a = true → q a = true) : l.countP p = (l.filter q).countP p := by
  induction l with
  | nil => simp
  | cons a t ih =>
    by_cases hq : q a = true
    · simp [List.filter_cons, hq, List.countP_cons, ih]
    · have hp : p a = false := by
        cases hpa : p a with
        | false => rfl
        | true => exact absurd (himp a hpa) hq
      simp [List.filter_cons, hq, List.countP_cons, hp, ih]

theorem serverEvents_filter_self (checkBefore checkAfter : String → Bool)
    (auto_restart : Bool) (n : String) :
    (serverEvents checkBefore checkAfter auto_restart n).1.filter (mentions n) =
      (serverEvents checkBefore checkAfter auto_restart n).1 := by
  unfold serverEvents
  split <;> simp [mentions]

theorem serverEvents_filter_other (checkBefore checkAfter : String → Bool)
    (auto_restart : Bool) (m n : String) (hne : m ≠ n) :
    (serverEvents checkBefore checkAfter auto_restart m).1.filter (mentions n) = [] := by
  unfold serverEvents
  split <;> simp [mentions, hne]

theorem join_filter_of_not_mem (checkBefore checkAfter : String → Bool)
    (auto_restart : Bool) (n : String) :
    ∀ ms : List String, n ∉ ms →
      (((ms.map (serverEvents checkBefore checkAfter auto_restart)).map Prod.fst).flatten).filter
        (mentions n) = [] := by
  intro ms
  induction ms with
  | nil => intro _; simp
  | cons m t ih =>
    intro hn
    simp only [List.map_cons, List.flatten, List.filter_append]
    rw [serverEvents_filter_other _ _ _ m n (fun h => hn (h ▸ List.mem_cons_self m t)),
      ih (fun h => hn (List.mem_cons_of_mem m h))]
    simp

theorem join_filter_of_mem (checkBefore checkAfter : String → Bool)
    (auto_restart : Bool) (n : String) :
    ∀ ms : List String, n ∈ ms → ms.Nodup →
      (((ms.map (serverEvents checkBefore checkAfter auto_restart)).map Prod.fst).flatten).filter
        (mentions n) = (serverEvents checkBefore checkAfter auto_restart n).1 := by
  intro ms
  induction ms with
  | nil => intro h; simp at h
  | cons m t ih =>
    intro hn hnd
    rcases List.nodup_cons.mp hnd with ⟨hmt, hndt⟩
    simp only [List.map_cons, List.flatten, List.filter_append]
    rcases List.mem_cons.mp hn with rfl | hnt
    · rw [serverEvents_filter_self, join_filter_of_not_mem _ _ _ n t hmt]
      simp
    · have hmn : m ≠ n := fun h => hmt (h ▸ hnt)
      rw [serverEvents_filter_other _ _ _ m n hmn, ih hnt hndt]
      simp

/-- Claim C7: in one `check_all` run with auto-restart, each monitored
server (their docker names are distinct and all carry the `mcp_server_`
prefix) is restarted at most once; a server whose first check fails gets
exactly the sequence check–restart–re-check (one restart, one re-run), and
the re-check's outcome — failure included — is what the status reports, with
no further restart; a server whose first check passes (or any server when
auto-restart is off) is never restarted. -/
theorem check_all_restarts_at_most_once
    (servers : List String) (gatewayHealthy1 gatewayHealthy2 : Bool)
    (checkBefore checkAfter : String → Bool) (auto_restart : Bool)
    (hpre : ∀ n ∈ servers, "mcp_server_".data.isPrefixOf n.data = true)
    (hnd : servers.Nodup) :
    ∀ n ∈ servers,
      (check_all servers gatewayHealthy1 gatewayHealthy2 checkBefore checkAfter
          auto_restart).1.countP (fun a => a == MonAction.restart n) ≤ 1 ∧
      (auto_restart = true → checkBefore n = false →
        (check_all servers gatewayHealthy1 gatewayHealthy2 checkBefore checkAfter
            auto_restart).1.filter (mentions n) =
          [MonAction.checkServer n, MonAction.restart n, MonAction.checkServer n] ∧
        (⟨n, checkAfter n, true⟩ : ServerStatusEntry) ∈
          (check_all servers gatewayHealthy1 gatewayHealthy2 checkBefore checkAfter
            auto_restart).2.2) ∧
      (auto_restart = false ∨ checkBefore n = true →
        (check_all servers gatewayHealthy1 gatewayHealthy2 checkBefore checkAfter
            auto_restart).1.filter (mentions n) = [MonAction.checkServer n] ∧
        (⟨n, checkBefore n, false⟩ : ServerStatusEntry) ∈
          (check_all servers gatewayHealthy1 gatewayHealthy2 checkBefore checkAfter
            auto_restart).2.2) := by
  intro n hn
  have hne : n ≠ "mcp_gateway" := by
    intro h
    have hp := hpre n hn
    rw [h] at hp
    exact absurd hp (by decide)
  have hgwmention : ∀ a ∈ [MonAction.checkGateway, MonAction.restart "mcp_gateway",
      MonAction.checkGateway], mentions n a = false := by
    intro a ha
    rcases List.mem_cons.mp ha with rfl | ha
    · rfl
    rcases List.mem_cons.mp ha with rfl | ha
    · simp only [mentions, beq_eq_false_iff_ne, ne_eq]
      exact fun h => hne h.symm
    rcases List.mem_cons.mp ha with rfl | ha
    · rfl
    · simp at ha
  have hfull : (check_all servers gatewayHealthy1 gatewayHealthy2 checkBefore checkAfter
      auto_restart).1.filter (mentions n) =
      (serverEvents checkBefore checkAfter auto_restart n).1 := by
    unfold check_all
    by_cases hgw : gatewayHealthy1 = false ∧ auto_restart = true
    · simp only [if_pos hgw, List.filter_append]
      rw [join_filter_of_mem _ _ _ n servers hn hnd]
      rw [List.filter_eq_nil_iff.mpr (fun a ha => by simp [hgwmention a ha])]
      simp
    · simp only [if_neg hgw, List.filter_append]
      rw [join_filter_of_mem _ _ _ n servers hn hnd]
      rw [List.filter_eq_nil_iff.mpr
        (fun a ha => by simp [hgwmention a (by simp at ha; simp [ha])])]
      simp
  have h22 : (check_all servers gatewayHealthy1 gatewayHealthy2 checkBefore checkAfter
      auto_restart).2.2 =
      servers.map (fun mname => (serverEvents checkBefore checkAfter auto_restart mname).2) := by
    unfold check_all
    by_cases hgw : gatewayHealthy1 = false ∧ auto_restart = true
    · simp [if_pos hgw]
    · simp [if_neg hgw]
  refine ⟨?_, ?_, ?_⟩
  · have himp : ∀ a, (a == MonAction.restart n) = true → mentions n a = true := by
      intro a ha
      have := eq_of_beq ha
      subst this
      simp [mentions]
    rw [countP_eq_countP_filter_of_imp _ _ _ himp, hfull]
    unfold serverEvents
    split <;> simp [List.countP_cons]
  · intro hauto hfail
    have hblock : serverEvents checkBefore checkAfter auto_restart n =
        ([MonAction.checkServer n, MonAction.restart n, MonAction.checkServer n],
          ⟨n, checkAfter n, true⟩) := by
      unfold serverEvents
      rw [if_pos ⟨hfail, hauto⟩]
    refine ⟨by rw [hfull, hblock], ?_⟩
    rw [h22]
    exact List.mem_map.mpr ⟨n, hn, by rw [hblock]⟩
  · intro hor
    have hcond : ¬ (checkBefore n = false ∧ auto_restart = true) := by
      rintro ⟨h1, h2⟩
      rcases hor with h | h
      · rw [h] at h2; exact Bool.false_ne_true h2
      · rw [h] at h1; exact absurd h1 (by decide)
    have hblock : serverEvents checkBefore checkAfter auto_restart n =
        ([MonAction.checkServer n], ⟨n, checkBefore n, false⟩) := by
      unfold serverEvents
      rw [if_neg hcond]
    refine ⟨by rw [hfull, hblock], ?_⟩
    rw [h22]
    exact List.mem_map.mpr ⟨n, hn, by rw [hblock]⟩

/-- Witness for `check_all_restarts_at_most_once`: two servers, `llama`
failing its first check and also its post-restart re-check, `phi` healthy —
`llama` is restarted exactly once and its failure is reported. -/
theorem check_all_restarts_at_most_once_witness :
    (check_all ["mcp_server_llama", "mcp_server_phi"] true true
        (fun s => s == "mcp_server_phi") (fun _ => false) true).1.countP
      (fun a => a == MonAction.restart "mcp_server_llama") ≤ 1 ∧
    (check_all ["mcp_server_llama", "mcp_server_phi"] true true
        (fun s => s == "mcp_server_phi") (fun _ => false) true).1.filter
      (mentions "mcp_server_llama") =
      [MonAction.checkServer "mcp_server_llama", MonAction.restart "mcp_server_llama",
        MonAction.checkServer "mcp_server_llama"] ∧
    (⟨"mcp_server_llama", false, true⟩ : ServerStatusEntry) ∈
      (check_all ["mcp_server_llama", "mcp_server_phi"] true true
        (fun s => s == "mcp_server_phi") (fun _ => false) true).2.2 := by
  have h := check_all_restarts_at_most_once ["mcp_server_llama", "mcp_server_phi"] true true
    (fun s => s == "mcp_server_phi") (fun _ => false) true
    (by decide) (by decide) "mcp_server_llama" (by decide)
  exact ⟨h.1, (h.2.1 rfl (by decide)).1, (h.2.1 rfl (by decide)).2⟩

/-! ## Deployment runs (`mcp_deploy.deploy_mcp_servers`, `deploy_mcp.main`)

Each step's external outcome is an oracle Boolean; the value returned and
the ordered list of actions the run performs are the observables.  Neither
entry point ever invokes a stop/teardown operation — `stopServers` is in the
action vocabulary because `undeploy` (which is a separate operation) uses
it, and the claim is precisely that deploy-time failure paths never do. -/

/-- Step outcomes seen by `mcp_deploy.deploy_mcp_servers`. -/
structure DeployEnv where
  dockerOk : Bool
  networkOk : Bool
  envReady : Bool
  secretsReady : Bool
  startOk : Bool
  healthy : Bool
  reportOk : Bool

/-- Observable actions of a deployment run. -/
inductive DeployAction where
  | dockerCheck
  | networkCheck
  | envSetup
  | startServers
  | healthCheck
  | healthReport
  | deployComplete
  | stopServers
deriving DecidableEq, Repr

/-- `mcp_deploy.deploy_mcp_servers(timeout)`: docker check, network check,
environment setup, server startup, health wait, health report, completion —
each failing step logs FAILED and returns `False` immediately (a failing
health report is the one exception: the run continues); no path stops a
started server. -/
def deploy_mcp_servers (e : DeployEnv) : List DeployAction × Bool :=
  if e.dockerOk = false then ([.dockerCheck], false)
  else if e.networkOk = false then ([.dockerCheck, .networkCheck], false)
  else if (e.envReady && e.secretsReady) = false then
    ([.dockerCheck, .networkCheck, .envSetup], false)
  else if e.startOk = false then
    ([.dockerCheck, .networkCheck, .envSetup, .startServers], false)
  else if e.healthy = false then
    ([.dockerCheck, .networkCheck, .envSetup, .startServers, .healthCheck], false)
  else
    ([.dockerCheck, .networkCheck, .envSetup, .startServers, .healthCheck,
      .healthReport, .deployComplete], true)

/-- Step outcomes seen by `deploy_mcp.main`. -/
structure MainEnv where
  dockerInstalled : Bool
  envVarsOk : Bool
  buildOk : Bool
  startOk : Bool
  serversReady : Bool
  noWindsurf : Bool
  bridgeBuilt : Bool

/-- Observable actions of a `deploy_mcp.main` run. -/
inductive MainAction where
  | updateEnv
  | buildImages
  | startContainers
  | waitForServers
  | buildBridge
  | configureWindsurf
  | mainComplete
  | stopServers
deriving DecidableEq, Repr

/-- `deploy_mcp.main()`: after the docker and environment-variable
preconditions, it updates the MCP env file, builds images, starts
containers, and calls `wait_for_servers()`; when that wait times out it only
prints a warning and CONTINUES — Windsurf configuration still runs and the
script ends with "MCP deployment completed successfully".  `True` means the
run reached the end without `sys.exit(1)`. -/
def deployMain (e : MainEnv) : List MainAction × Bool :=
  if e.dockerInstalled = false then ([], false)
  else if e.envVarsOk = false then ([], false)
  else if e.buildOk = false then ([MainAction.updateEnv, MainAction.buildImages], false)
  else if e.startOk = false then
    ([MainAction.updateEnv, MainAction.buildImages, MainAction.startContainers], false)
  else
    let t := [MainAction.updateEnv, MainAction.buildImages, MainAction.startContainers,
      MainAction.waitForServers]
    let t :=
      if e.noWindsurf = false then
        if e.bridgeBuilt then t ++ [MainAction.buildBridge, MainAction.configureWindsurf]
        else t ++ [MainAction.buildBridge]
      else t
    (t ++ [MainAction.mainComplete], true)

/-- Claim C8, counterexample: the claim says a deployment run whose health
verification times out "returns failure and skips all later steps".
`deploy_mcp.main` does not: with every other step fine and the
wait-for-servers probe never succeeding, the run still completes
successfully (exit 0, `mainComplete` reached, Windsurf configuration still
executed) — and, consistent with the claim's other half, never stops a
started service. -/
theorem deployMain_succeeds_despite_wait_timeout :
    (deployMain ⟨true, true, true, true, false, false, true⟩).2 = true ∧
    DeployAction.stopServers ∉ (deploy_mcp_servers ⟨true, true, true, true, true, false, true⟩).1 ∧
    deployMain ⟨true, true, true, true, false, false, true⟩ =
      ([MainAction.updateEnv, MainAction.buildImages, MainAction.startContainers,
        MainAction.waitForServers, MainAction.buildBridge, MainAction.configureWindsurf,
        MainAction.mainComplete], true) := by
  refine ⟨rfl, by decide, rfl⟩

/-- Claim C8 as amended: in `mcp_deploy.deploy_mcp_servers` a health-check
timeout does move the run to FAILED — the run returns `False`, the
started-servers step stays in the trace, the health-report and completion
steps are skipped, and no stop operation is invoked, so started services
stay running; in `deploy_mcp.main`, by contrast, a wait-for-servers timeout
is only a warning: the run still completes successfully — but it, too,
invokes no stop operation. -/
theorem deploy_failure_leaves_servers_running
    (e : DeployEnv) (me : MainEnv)
    (hdocker : e.dockerOk = true) (hnet : e.networkOk = true)
    (henv : e.envReady = true) (hsec : e.secretsReady = true)
    (hstart : e.startOk = true) (hhealth : e.healthy = false)
    (hmd : me.dockerInstalled = true) (hme : me.envVarsOk = true)
    (hmb : me.buildOk = true) (hms : me.startOk = true) :
    (deploy_mcp_servers e).2 = false ∧
    DeployAction.startServers ∈ (deploy_mcp_servers e).1 ∧
    DeployAction.stopServers ∉ (deploy_mcp_servers e).1 ∧
    DeployAction.healthReport ∉ (deploy_mcp_servers e).1 ∧
    DeployAction.deployComplete ∉ (deploy_mcp_servers e).1 ∧
    (deployMain me).2 = true ∧
    MainAction.stopServers ∉ (deployMain me).1 := by
  have hd : deploy_mcp_servers e =
      ([.dockerCheck, .networkCheck, .envSetup, .startServers, .healthCheck], false) := by
    unfold deploy_mcp_servers
    rw [hdocker, hnet, henv, hsec, hstart, hhealth]
    simp
  refine ⟨by rw [hd], by rw [hd]; simp, by rw [hd]; simp, by rw [hd]; simp, by rw [hd]; simp,
    ?_, ?_⟩
  · unfold deployMain
    rw [hmd, hme, hmb, hms]
    simp
  · unfold deployMain
    rw [hmd, hme, hmb, hms]
    simp only [Bool.true_eq_false, if_false]
    split
    · split <;> simp
    · simp

/-- Witness for `deploy_failure_leaves_servers_running`: all preconditions
fine, servers started, health check times out. -/
theorem deploy_failure_leaves_servers_running_witness :
    (deploy_mcp_servers ⟨true, true, true, true, true, false, true⟩).2 = false ∧
    DeployAction.startServers ∈ (deploy_mcp_servers ⟨true, true, true, true, true, false, true⟩).1 ∧
    MainAction.stopServers ∉ (deployMain ⟨true, true, true, true, false, true, true⟩).1 := by
  have h := deploy_failure_leaves_servers_running
    ⟨true, true, true, true, true, false, true⟩ ⟨true, true, true, true, false, true, true⟩
    rfl rfl rfl rfl rfl rfl rfl rfl rfl rfl
  exact ⟨h.1, h.2.1, h.2.2.2.2.2.2⟩

/-! ## Health-wait loops (`mcp_health_monitor.comprehensive_health_check`,
`mcp_server_setup.check_server_health`)

Each pass of the `while time.time() - start_time < timeout` loop consumes
one unit of fuel (each failing pass sleeps for the poll interval); the
probes of iteration `k` are answered by the oracle at `k`.  A loop run
returns the probe trace of every executed iteration, tagged with its
iteration index, plus the final verdict. -/

/-- One external probe of a health-check iteration: the single `docker ps`
covering every container (layer 1), a TCP connect for one service (layer 2),
an HTTP health request for one service (layer 3), and the single
`docker stats` call (layer 4). -/
inductive Probe where
  | layer1
  | layer2 (svc : String)
  | layer3 (svc : String)
  | layer4
deriving DecidableEq, Repr

/-- The layer number of a probe. -/
def probeLayer : Probe → Nat
  | .layer1 => 1
  | .layer2 _ => 2
  | .layer3 _ => 3
  | .layer4 => 4

/-- The probes of one iteration appear in non-decreasing layer order: no
layer-N+1 probe ever precedes a layer-N probe. -/
def layerSorted (l : List Probe) : Prop :=
  l.Pairwise (fun a b => probeLayer a ≤ probeLayer b)

/-- `check_port = ports.get('main_health', port) if name == 'main' else
port`: the main service's HTTP check goes to the dedicated health port when
one is configured. -/
def checkPort (ports : List (String × Nat)) (np : String × Nat) : Nat :=
  if np.1 = "main" then (ports.lookup "main_health").getD np.2 else np.2

/-- The world as one iteration of `comprehensive_health_check` observes it:
the ports parsed from the env file, the container dict from
`check_container_status()` (name ↦ `"healthy" in status`; empty on a docker
error or when nothing runs), the TCP connect oracle, the HTTP health oracle,
and the `check_resource_usage()` payload (empty dict on error). -/
structure MonitorIter where
  ports : List (String × Nat)
  containers : List (String × Bool)
  tcpOk : Nat → Bool
  httpOk : Nat → Bool
  resources : List (String × ResourceUsage)

/-- One pass of the `comprehensive_health_check` loop body: no ports →
retry; no containers → retry; any container unhealthy → retry; layer-2 TCP
probes for every non-`main_health` service (dict comprehension probes all,
then `all()` gates); layer-3 HTTP probes for every service; then the layer-4
`docker stats` sample, whose content is ignored, and success. -/
def monitorIterProbes (o : MonitorIter) : List Probe × Bool :=
  if o.ports.isEmpty = true then ([], false)
  else if o.containers.isEmpty = true then ([Probe.layer1], false)
  else if o.containers.all (fun c => c.2) = false then ([Probe.layer1], false)
  else
    let tcpSvcs := o.ports.filter (fun np => ¬ np.1 = "main_health")
    let tcpProbes := tcpSvcs.map (fun np => Probe.layer2 np.1)
    if tcpSvcs.all (fun np => o.tcpOk np.2) = false then
      (Probe.layer1 :: tcpProbes, false)
    else
      let httpProbes := o.ports.map (fun np => Probe.layer3 np.1)
      if o.ports.all (fun np => o.httpOk (checkPort o.ports np)) = false then
        (Probe.layer1 :: (tcpProbes ++ httpProbes), false)
      else
        (Probe.layer1 :: (tcpProbes ++ httpProbes ++ [Probe.layer4]), true)

/-- Python `for … in …: if not ok: break` over a probe list: the probes
actually issued, and whether all of them passed. -/
def probeUntilFail {α : Type} (f : α → Bool) : List α → List α × Bool
  | [] => ([], true)
  | x :: xs =>
    if f x then
      let r := probeUntilFail f xs
      (x :: r.1, r.2)
    else ([x], false)

/-- The world as one iteration of `check_server_health` observes it: whether
`docker ps` itself succeeded (a `CalledProcessError` lands in the outer
`except` and retries), the container status lines, the TCP and HTTP oracles,
and whether the layer-4 `docker stats` call succeeded. -/
structure SetupIter where
  dockerPsOk : Bool
  containers : List (String × Bool)
  tcpOk : Nat → Bool
  httpOk : Nat → Bool
  statsOk : Bool

/-- One pass of the `check_server_health` loop body: failed `docker ps` →
retry; any status line without `"healthy"` → retry; TCP probes for the
non-`main_health` ports with early `break` on the first failure; HTTP
probes likewise; finally the `docker stats` call — whose
`CalledProcessError` also retries, so success REQUIRES the resource probe
to succeed. -/
def setupIterProbes (ports : List (String × Nat)) (o : SetupIter) : List Probe × Bool :=
  if o.dockerPsOk = false then ([Probe.layer1], false)
  else if o.containers.all (fun c => c.2) = false then ([Probe.layer1], false)
  else
    let tcpSvcs := ports.filter (fun np => ¬ np.1 = "main_health")
    let tcp := probeUntilFail (fun np => o.tcpOk np.2) tcpSvcs
    let tcpProbes := tcp.1.map (fun np => Probe.layer2 np.1)
    if tcp.2 = false then (Probe.layer1 :: tcpProbes, false)
    else
      let http := probeUntilFail (fun np => o.httpOk (checkPort ports np)) tcpSvcs
      let httpProbes := http.1.map (fun np => Probe.layer3 np.1)
      if http.2 = false then (Probe.layer1 :: (tcpProbes ++ httpProbes), false)
      else if o.statsOk = false then
        (Probe.layer1 :: (tcpProbes ++ httpProbes ++ [Probe.layer4]), false)
      else
        (Probe.layer1 :: (tcpProbes ++ httpProbes ++ [Probe.layer4]), true)

/-- The common polling scaffold of both health-wait loops: run one iteration
against the oracle at the current index; stop with success, or sleep and
re-enter the loop body from its top (one fuel unit per pass, fuel exhaustion
is the timeout, verdict `false`). -/
def pollLoop {ι : Type} (iter : ι → List Probe × Bool) (oracle : Nat → ι) :
    Nat → Nat → List (Nat × List Probe) × Bool
  | 0, _ => ([], false)
  | fuel + 1, k =>
    let r := iter (oracle k)
    if r.2 then ([(k, r.1)], true)
    else
      let rest := pollLoop iter oracle fuel (k + 1)
      ((k, r.1) :: rest.1, rest.2)

/-- `mcp_health_monitor.comprehensive_health_check(timeout)`. -/
def comprehensive_health_check (oracle : Nat → MonitorIter) (fuel k₀ : Nat) :
    List (Nat × List Probe) × Bool :=
  pollLoop monitorIterProbes oracle fuel k₀

/-- `mcp_server_setup.check_server_health(ports, timeout)`. -/
def check_server_health (ports : List (String × Nat)) (oracle : Nat → SetupIter)
    (fuel k₀ : Nat) : List (Nat × List Probe) × Bool :=
  pollLoop (setupIterProbes ports) oracle fuel k₀

/-- Layer-1 gate of a monitor iteration: containers found and all healthy. -/
def containersPass (o : MonitorIter) : Bool :=
  !o.containers.isEmpty && o.containers.all (fun c => c.2)

/-- Layer-2 gate of a monitor iteration. -/
def tcpPass (o : MonitorIter) : Bool :=
  (o.ports.filter (fun np => ¬ np.1 = "main_health")).all (fun np => o.tcpOk np.2)

/-- Layer-3 gate of a monitor iteration. -/
def httpPass (o : MonitorIter) : Bool :=
  o.ports.all (fun np => o.httpOk (checkPort o.ports np))

/-- Layer-1 gate of a setup iteration. -/
def sContainersPass (o : SetupIter) : Bool :=
  o.dockerPsOk && o.containers.all (fun c => c.2)

/-- Layer-2 gate of a setup iteration. -/
def sTcpPass (ports : List (String × Nat)) (o : SetupIter) : Bool :=
  (ports.filter (fun np => ¬ np.1 = "main_health")).all (fun np => o.tcpOk np.2)

/-- Layer-3 gate of a setup iteration. -/
def sHttpPass (ports : List (String × Nat)) (o : SetupIter) : Bool :=
  (ports.filter (fun np => ¬ np.1 = "main_health")).all
    (fun np => o.httpOk (checkPort ports np))

/-- The per-iteration ordering/gating contract shared by both loop bodies. -/
def IterProps (containersB tcpB httpB : Bool) (seg : List Probe) : Prop :=
  layerSorted seg ∧
  (seg ≠ [] → seg.head? = some Probe.layer1) ∧
  ((∃ s, Probe.layer2 s ∈ seg) → containersB = true) ∧
  ((∃ s, Probe.layer3 s ∈ seg) → containersB = true ∧ tcpB = true) ∧
  (Probe.layer4 ∈ seg → containersB = true ∧ tcpB = true ∧ httpB = true)

theorem probeLayer_pos (p : Probe) : 1 ≤ probeLayer p := by
  cases p <;> simp [probeLayer]

theorem pairwise_le_of_const_layer (l : List Probe) (n : Nat)
    (h : ∀ p ∈ l, probeLayer p = n) :
    l.Pairwise (fun a b => probeLayer a ≤ probeLayer b) := by
  induction l with
  | nil => simp
  | cons a t ih =>
    refine List.pairwise_cons.mpr ⟨?_, ih (fun p hp => h p (List.mem_cons_of_mem a hp))⟩
    intro b hb
    rw [h a (List.mem_cons_self a t), h b (List.mem_cons_of_mem a hb)]

theorem layerSorted_shape (t2 t3 t4 : List Probe)
    (h2 : ∀ p ∈ t2, probeLayer p = 2) (h3 : ∀ p ∈ t3, probeLayer p = 3)
    (h4 : ∀ p ∈ t4, probeLayer p = 4) :
    layerSorted (Probe.layer1 :: (t2 ++ t3 ++ t4)) := by
  unfold layerSorted
  refine List.pairwise_cons.mpr ⟨fun b _ => probeLayer_pos b, ?_⟩
  refine List.pairwise_append.mpr ⟨List.pairwise_append.mpr
    ⟨pairwise_le_of_const_layer t2 2 h2, pairwise_le_of_const_layer t3 3 h3, ?_⟩,
    pairwise_le_of_const_layer t4 4 h4, ?_⟩
  · intro a ha b hb
    rw [h2 a ha, h3 b hb]
    omega
  · intro a ha b hb
    rcases List.mem_append.mp ha with ha | ha
    · rw [h2 a ha, h4 b hb]; omega
    · rw [h3 a ha, h4 b hb]; omega

theorem mem_map_layer2 (l : List (String × Nat)) (p : Probe)
    (hp : p ∈ l.map (fun np => Probe.layer2 np.1)) : probeLayer p = 2 := by
  rcases List.mem_map.mp hp with ⟨np, _, rfl⟩
  rfl

theorem mem_map_layer3 (l : List (String × Nat)) (p : Probe)
    (hp : p ∈ l.map (fun np => Probe.layer3 np.1)) : probeLayer p = 3 := by
  rcases List.mem_map.mp hp with ⟨np, _, rfl⟩
  rfl

theorem probeUntilFail_snd {α : Type} (f : α → Bool) :
    ∀ l : List α, (probeUntilFail f l).2 = l.all f := by
  intro l
  induction l with
  | nil => rfl
  | cons x xs ih =>
    by_cases hx : f x = true
    · simp [probeUntilFail, hx, ih]
    · simp [probeUntilFail, hx]

theorem monitorIter_props (o : MonitorIter) :
    IterProps (containersPass o) (tcpPass o) (httpPass o) (monitorIterProbes o).1 := by
  simp only [monitorIterProbes]
  split_ifs with h1 h2 h3 h4 h5
  · exact ⟨by simp [layerSorted], by simp, by rintro ⟨s, hs⟩; simp at hs,
      by rintro ⟨s, hs⟩; simp at hs, by intro hs; simp at hs⟩
  · exact ⟨by simp [layerSorted], fun _ => rfl, by rintro ⟨s, hs⟩; simp at hs,
      by rintro ⟨s, hs⟩; simp at hs, by intro hs; simp at hs⟩
  · exact ⟨by simp [layerSorted], fun _ => rfl, by rintro ⟨s, hs⟩; simp at hs,
      by rintro ⟨s, hs⟩; simp at hs, by intro hs; simp at hs⟩
  all_goals simp only [Bool.not_eq_true, Bool.not_eq_false] at h2 h3
  · have hcp : containersPass o = true := by simp [containersPass, h2, h3]
    refine ⟨?_, fun _ => rfl, fun _ => hcp, ?_, ?_⟩
    · have := layerSorted_shape
        ((o.ports.filter (fun np => ¬ np.1 = "main_health")).map (fun np => Probe.layer2 np.1))
        [] [] (mem_map_layer2 _) (by simp) (by simp)
      simpa using this
    · rintro ⟨s, hs⟩
      simp at hs
    · intro hs
      simp at hs
  · simp only [Bool.not_eq_false] at h4
    have hcp : containersPass o = true := by simp [containersPass, h2, h3]
    have htp : tcpPass o = true := h4
    refine ⟨?_, fun _ => rfl, fun _ => hcp, fun _ => ⟨hcp, htp⟩, ?_⟩
    · have := layerSorted_shape
        ((o.ports.filter (fun np => ¬ np.1 = "main_health")).map (fun np => Probe.layer2 np.1))
        (o.ports.map (fun np => Probe.layer3 np.1)) []
        (mem_map_layer2 _) (mem_map_layer3 _) (by simp)
      simpa using this
    · intro hs
      simp at hs
  · simp only [Bool.not_eq_false] at h4 h5
    have hcp : containersPass o = true := by simp [containersPass, h2, h3]
    have htp : tcpPass o = true := h4
    have hhp : httpPass o = true := h5
    refine ⟨?_, fun _ => rfl, fun _ => hcp, fun _ => ⟨hcp, htp⟩, fun _ => ⟨hcp, htp, hhp⟩⟩
    exact layerSorted_shape
      ((o.ports.filter (fun np => ¬ np.1 = "main_health")).map (fun np => Probe.layer2 np.1))
      (o.ports.map (fun np => Probe.layer3 np.1)) [Probe.layer4]
      (mem_map_layer2 _) (mem_map_layer3 _) (by simp [probeLayer])

theorem setupIter_props (ports : List (String × Nat)) (o : SetupIter) :
    IterProps (sContainersPass o) (sTcpPass ports o) (sHttpPass ports o)
      (setupIterProbes ports o).1 := by
  simp only [setupIterProbes]
  split_ifs with h1 h2 h3 h4 h5
  · exact ⟨by simp [layerSorted], fun _ => rfl, by rintro ⟨s, hs⟩; simp at hs,
      by rintro ⟨s, hs⟩; simp at hs, by intro hs; simp at hs⟩
  · exact ⟨by simp [layerSorted], fun _ => rfl, by rintro ⟨s, hs⟩; simp at hs,
      by rintro ⟨s, hs⟩; simp at hs, by intro hs; simp at hs⟩
  all_goals simp only [Bool.not_eq_false] at h1 h2
  · have hcp : sContainersPass o = true := by simp [sContainersPass, h1, h2]
    refine ⟨?_, fun _ => rfl, fun _ => hcp, ?_, ?_⟩
    · have := layerSorted_shape
        ((probeUntilFail (fun np => o.tcpOk np.2)
          (ports.filter (fun np => ¬ np.1 = "main_health"))).1.map (fun np => Probe.layer2 np.1))
        [] [] (mem_map_layer2 _) (by simp) (by simp)
      simpa using this
    · rintro ⟨s, hs⟩
      simp at hs
    · intro hs
      simp at hs
  · simp only [Bool.not_eq_false] at h3
    have hcp : sContainersPass o = true := by simp [sContainersPass, h1, h2]
    have htp : sTcpPass ports o = true := by
      have h3' := h3
      rw [probeUntilFail_snd] at h3'
      exact h3'
    refine ⟨?_, fun _ => rfl, fun _ => hcp, fun _ => ⟨hcp, htp⟩, ?_⟩
    · have := layerSorted_shape
        ((probeUntilFail (fun np => o.tcpOk np.2)
          (ports.filter (fun np => ¬ np.1 = "main_health"))).1.map (fun np => Probe.layer2 np.1))
        ((probeUntilFail (fun np => o.httpOk (checkPort ports np))
          (ports.filter (fun np => ¬ np.1 = "main_health"))).1.map (fun np => Probe.layer3 np.1))
        [] (mem_map_layer2 _) (mem_map_layer3 _) (by simp)
      simpa using this
    · intro hs
      simp at hs
  all_goals {
    simp only [Bool.not_eq_false] at h3 h4
    have hcp : sContainersPass o = true := by simp [sContainersPass, h1, h2]
    have htp : sTcpPass ports o = true := by
      have h3' := h3
      rw [probeUntilFail_snd] at h3'
      exact h3'
    have hhp : sHttpPass ports o = true := by
      have h4' := h4
      rw [probeUntilFail_snd] at h4'
      exact h4'
    refine ⟨?_, fun _ => rfl, fun _ => hcp, fun _ => ⟨hcp, htp⟩, fun _ => ⟨hcp, htp, hhp⟩⟩
    exact layerSorted_shape
      ((probeUntilFail (fun np => o.tcpOk np.2)
        (ports.filter (fun np => ¬ np.1 = "main_health"))).1.map (fun np => Probe.layer2 np.1))
      ((probeUntilFail (fun np => o.httpOk (checkPort ports np))
        (ports.filter (fun np => ¬ np.1 = "main_health"))).1.map (fun np => Probe.layer3 np.1))
      [Probe.layer4] (mem_map_layer2 _) (mem_map_layer3 _) (by simp [probeLayer])
  }

theorem pollLoop_mem {ι : Type} (iter : ι → List Probe × Bool) (oracle : Nat → ι) :
    ∀ (fuel k₀ : Nat), ∀ kp ∈ (pollLoop iter oracle fuel k₀).1,
      kp.2 = (iter (oracle kp.1)).1 := by
  intro fuel
  induction fuel with
  | zero =>
    intro k₀ kp hkp
    simp [pollLoop] at hkp
  | succ n ih =>
    intro k₀ kp hkp
    simp only [pollLoop] at hkp
    by_cases h : (iter (oracle k₀)).2 = true
    · rw [if_pos h] at hkp
      rcases List.mem_singleton.mp hkp with rfl
      rfl
    · rw [if_neg h] at hkp
      rcases List.mem_cons.mp hkp with rfl | h2
      · rfl
      · exact ih (k₀ + 1) kp h2

/-- Claim C1: in every polling iteration of either health-wait loop, the
probes appear in strict layer order (`layerSorted`), layer 2 is probed for a
service only when layer 1 passed for the whole container set in that same
iteration, layer 3 only when layers 1 and 2 passed for every service, and
layer 4 only after layers 1–3 passed for all; and whenever any layer fails,
the iteration ends there (its probe list stops at the failed layer), the
loop sleeps and the next iteration begins again with the layer-1 probe —
every non-empty iteration trace starts with `Probe.layer1`. -/
theorem health_wait_strict_layer_order :
    (∀ (oracle : Nat → MonitorIter) (fuel k₀ : Nat),
      ∀ kp ∈ (comprehensive_health_check oracle fuel k₀).1,
        IterProps (containersPass (oracle kp.1)) (tcpPass (oracle kp.1))
          (httpPass (oracle kp.1)) kp.2) ∧
    (∀ (ports : List (String × Nat)) (oracle : Nat → SetupIter) (fuel k₀ : Nat),
      ∀ kp ∈ (check_server_health ports oracle fuel k₀).1,
        IterProps (sContainersPass (oracle kp.1)) (sTcpPass ports (oracle kp.1))
          (sHttpPass ports (oracle kp.1)) kp.2) := by
  constructor
  · intro oracle fuel k₀ kp hkp
    rw [pollLoop_mem monitorIterProbes oracle fuel k₀ kp hkp]
    exact monitorIter_props (oracle kp.1)
  · intro ports oracle fuel k₀ kp hkp
    rw [pollLoop_mem (setupIterProbes ports) oracle fuel k₀ kp hkp]
    exact setupIter_props ports (oracle kp.1)

/-- Witness for `health_wait_strict_layer_order`: one-service fleets whose
checks all pass; each loop's single iteration probes layer 1, then TCP, then
HTTP, then resources, and satisfies the per-iteration contract. -/
theorem health_wait_strict_layer_order_witness :
    (((0 : Nat), [Probe.layer1, Probe.layer2 "github", Probe.layer3 "github", Probe.layer4]) ∈
        (comprehensive_health_check
          (fun _ => ⟨[("github", 3000)], [("docgen-mcp-github", true)],
            fun _ => true, fun _ => true, []⟩) 1 0).1 ∧
      IterProps
        (containersPass ⟨[("github", 3000)], [("docgen-mcp-github", true)],
          fun _ => true, fun _ => true, []⟩)
        (tcpPass ⟨[("github", 3000)], [("docgen-mcp-github", true)],
          fun _ => true, fun _ => true, []⟩)
        (httpPass ⟨[("github", 3000)], [("docgen-mcp-github", true)],
          fun _ => true, fun _ => true, []⟩)
        [Probe.layer1, Probe.layer2 "github", Probe.layer3 "github", Probe.layer4]) ∧
    (((0 : Nat), [Probe.layer1, Probe.layer2 "github", Probe.layer3 "github", Probe.layer4]) ∈
        (check_server_health [("github", 3000)]
          (fun _ => ⟨true, [("docgen-mcp-github", true)], fun _ => true, fun _ => true, true⟩)
          1 0).1 ∧
      IterProps
        (sContainersPass ⟨true, [("docgen-mcp-github", true)], fun _ => true, fun _ => true, true⟩)
        (sTcpPass [("github", 3000)]
          ⟨true, [("docgen-mcp-github", true)], fun _ => true, fun _ => true, true⟩)
        (sHttpPass [("github", 3000)]
          ⟨true, [("docgen-mcp-github", true)], fun _ => true, fun _ => true, true⟩)
        [Probe.layer1, Probe.layer2 "github", Probe.layer3 "github", Probe.layer4]) := by
  constructor
  · have hmem : ((0 : Nat), [Probe.layer1, Probe.layer2 "github", Probe.layer3 "github",
        Probe.layer4]) ∈
        (comprehensive_health_check
          (fun _ => ⟨[("github", 3000)], [("docgen-mcp-github", true)],
            fun _ => true, fun _ => true, []⟩) 1 0).1 := by decide
    exact ⟨hmem, health_wait_strict_layer_order.1 _ 1 0 _ hmem⟩
  · have hmem : ((0 : Nat), [Probe.layer1, Probe.layer2 "github", Probe.layer3 "github",
        Probe.layer4]) ∈
        (check_server_health [("github", 3000)]
          (fun _ => ⟨true, [("docgen-mcp-github", true)], fun _ => true, fun _ => true, true⟩)
          1 0).1 := by decide
    exact ⟨hmem, health_wait_strict_layer_order.2 [("github", 3000)] _ 1 0 _ hmem⟩

/-- Claim C4, counterexample: two `check_server_health` runs whose layer 1–3
worlds are literally identical and that differ only in whether the layer-4
`docker stats` call succeeds return different verdicts — with the stats call
failing every pass the loop retries until timeout and reports `False`, so
the resource check does gate the verdict in `mcp_server_setup.py`. -/
theorem check_server_health_gated_by_resource_check :
    (check_server_health [("github", 3000)]
      (fun _ => ⟨true, [("docgen-mcp-github", true)], fun _ => true, fun _ => true, false⟩)
      1 0).2 = false ∧
    (check_server_health [("github", 3000)]
      (fun _ => ⟨true, [("docgen-mcp-github", true)], fun _ => true, fun _ => true, true⟩)
      1 0).2 = true := by
  exact ⟨by decide, by decide⟩

theorem pollLoop_congr {ι : Type} (iter : ι → List Probe × Bool) (o₁ o₂ : Nat → ι)
    (h : ∀ k, iter (o₁ k) = iter (o₂ k)) :
    ∀ fuel k₀, pollLoop iter o₁ fuel k₀ = pollLoop iter o₂ fuel k₀ := by
  intro fuel
  induction fuel with
  | zero => intro k₀; rfl
  | succ n ih =>
    intro k₀
    simp only [pollLoop, h k₀, ih (k₀ + 1)]

theorem setupIterProbes_snd_true (ports : List (String × Nat)) (o : SetupIter)
    (h : (setupIterProbes ports o).2 = true) : o.statsOk = true := by
  simp only [setupIterProbes] at h
  split_ifs at h with h1 h2 h3 h4 h5
  all_goals try simp at h
  all_goals simpa using h5

/-- Claim C4 as amended: in `comprehensive_health_check`
(`mcp_health_monitor.py`) the resource layer truly never gates — two runs
whose ports/containers/TCP/HTTP worlds agree at every iteration produce
identical traces and verdicts whatever the resource sampling returns; but in
`check_server_health` (`mcp_server_setup.py`) the layer-4 `docker stats`
call is a gating condition: if it fails on every pass the loop can never
succeed, so the run returns `False` at timeout even when layers 1–3 pass for
every service throughout. -/
theorem resource_layer_advisory_only_in_monitor
    (o₁ o₂ : Nat → MonitorIter)
    (hagree : ∀ k, (o₁ k).ports = (o₂ k).ports ∧ (o₁ k).containers = (o₂ k).containers ∧
      (o₁ k).tcpOk = (o₂ k).tcpOk ∧ (o₁ k).httpOk = (o₂ k).httpOk)
    (ports : List (String × Nat)) (oracle : Nat → SetupIter)
    (hstats : ∀ k, (oracle k).statsOk = false) :
    (∀ fuel k₀, comprehensive_health_check o₁ fuel k₀ = comprehensive_health_check o₂ fuel k₀) ∧
    (∀ fuel k₀, (check_server_health ports oracle fuel k₀).2 = false) := by
  constructor
  · have hiter : ∀ k, monitorIterProbes (o₁ k) = monitorIterProbes (o₂ k) := by
      intro k
      obtain ⟨hp, hc, ht, hh⟩ := hagree k
      simp only [monitorIterProbes, hp, hc, ht, hh]
    intro fuel k₀
    exact pollLoop_congr monitorIterProbes o₁ o₂ hiter fuel k₀
  · intro fuel
    induction fuel with
    | zero => intro k₀; rfl
    | succ n ih =>
      intro k₀
      show (pollLoop (setupIterProbes ports) oracle (n + 1) k₀).2 = false
      simp only [pollLoop]
      by_cases hr : (setupIterProbes ports (oracle k₀)).2 = true
      · have := setupIterProbes_snd_true ports (oracle k₀) hr
        rw [hstats k₀] at this
        exact absurd this (by decide)
      · rw [if_neg hr]
        exact ih (k₀ + 1)

/-- Witness for `resource_layer_advisory_only_in_monitor`: two monitor
oracles identical except for the resource payload give identical runs; a
setup oracle whose stats call always fails (all other layers passing) gives
a `False` verdict. -/
theorem resource_layer_advisory_only_in_monitor_witness :
    comprehensive_health_check
        (fun _ => ⟨[("github", 3000)], [("docgen-mcp-github", true)],
          fun _ => true, fun _ => true, []⟩) 2 0 =
      comprehensive_health_check
        (fun _ => ⟨[("github", 3000)], [("docgen-mcp-github", true)],
          fun _ => true, fun _ => true, [("docgen-mcp-github", ⟨"5%", "10%", "100MiB"⟩)]⟩) 2 0 ∧
    (check_server_health [("github", 3000)]
      (fun _ => ⟨true, [("docgen-mcp-github", true)], fun _ => true, fun _ => true, false⟩)
      2 0).2 = false := by
  have h := resource_layer_advisory_only_in_monitor
    (fun _ => ⟨[("github", 3000)], [("docgen-mcp-github", true)],
      fun _ => true, fun _ => true, []⟩)
    (fun _ => ⟨[("github", 3000)], [("docgen-mcp-github", true)],
      fun _ => true, fun _ => true, [("docgen-mcp-github", ⟨"5%", "10%", "100MiB"⟩)]⟩)
    (fun _ => ⟨rfl, rfl, rfl, rfl⟩)
    [("github", 3000)]
    (fun _ => ⟨true, [("docgen-mcp-github", true)], fun _ => true, fun _ => true, false⟩)
    (fun _ => rfl)
  exact ⟨h.1 2 0, h.2 2 0⟩

end DocGen
